import Mathlib

/-!
Shallow embedding of the duration-fitting text-to-speech orchestration of
`backend/tts_service.py` (class `EdgeTTSService`) together with the request
schema `TTSRequest` of `backend/main.py`.

External effects are abstracted into explicit environment records:

* the Edge-TTS backend call inside `_generate_audio` is an oracle telling
  whether the call raises and what file state it leaves behind;
* for the controller `text_to_speech`, the outcome of each of the (at most
  two) `_generate_audio` calls is a boolean oracle (`gen1`, `gen2`), the
  mp3 duration measurement `_get_mp3_duration_ms` is a natural-number
  oracle (`dur1`, `dur2`; the function returns `0` when the file cannot be
  parsed), and the generated temporary file name is an opaque string
  (`tempPath`);
* the corrective-rate computation
  `int((actual_duration / target_duration_ms - 1) * 100)` appears twice:
  `extra_rate_percent` is its idealisation over exact rationals
  (truncation toward zero, `Int.tdiv ((actual - target) * 100) target`),
  the value the spec's floor formula and the code's own comment
  (`"pl. 1.15 -> +15%"`) describe, while `float_extra_rate_percent` is a
  bit-accurate model of the IEEE-754 binary64 arithmetic the program
  actually performs; the two agree except where double rounding loses the
  exact value by one (e.g. 1150/1000: float 14, exact 15), the divergence
  recorded against C1. The controller embedding `text_to_speech` uses the
  exact form; every property proved about it here is insensitive to the
  percent's value except, for negative targets, its sign, which the
  program's float arithmetic preserves (a non-positive ratio puts the
  float percent at or below -99);
* the emptiness guard `if not text or not text.strip()` holds exactly when
  every character of the text is whitespace (an empty string included), so
  it is modelled as `text.data.all Char.isWhitespace`.

The controller is modelled as a function from its environment and arguments
to its returned tuple paired with the list of synthesizer invocations it
performs, so that call-count and call-parameter properties are statable.
-/

/-- Parameters of one invocation of the external synthesis backend, as
received by `EdgeTTSService._generate_audio`. -/
structure SynthCall where
  text : String
  voice : String
  rate : String
  pitch : String
  volume : String
deriving DecidableEq

/-- State of the output file inspected at the end of
`_generate_audio`: whether `output_path` exists and its size in bytes. -/
structure FileState where
  pathExists : Bool
  sizeBytes : Nat
deriving DecidableEq

/-- Environment of one `_generate_audio` call: whether the
`edge_tts.Communicate(...)` construction or `communicate.save(output_path)`
raises an exception, and the state of the output file afterwards (an
exception may still leave a partially written, non-empty file behind). -/
structure GenEnv where
  raises : Bool
  fileAfter : FileState
deriving DecidableEq

/-- Embedding of `EdgeTTSService._generate_audio`: inside the `try` block it
performs the backend call and then returns
`os.path.exists(output_path) and os.path.getsize(output_path) > 0`; the
`except` branch turns any exception into `False`. -/
def generate_audio (env : GenEnv) : Bool :=
  if env.raises then false
  else env.fileAfter.pathExists && decide (0 < env.fileAfter.sizeBytes)

/-- Environment of one `text_to_speech` request: the result of the first
`_generate_audio` call, the duration measured after it, the result of the
(possible) second `_generate_audio` call, the duration measured after it,
and the temporary file name produced by `tempfile.NamedTemporaryFile`. -/
structure FitEnv where
  gen1 : Bool
  dur1 : Nat
  gen2 : Bool
  dur2 : Nat
  tempPath : String
deriving DecidableEq

/-- Return tuple of `EdgeTTSService.text_to_speech`:
`(sikeres, fájl_útvonal, időtartam_ms, hiba_üzenet)`. -/
structure TTSOutcome where
  success : Bool
  path : Option String
  durationMs : Nat
  errorMsg : Option String
deriving DecidableEq

/-- Truncation step of `text_to_speech`:
`if len(text) > 4000: text = text[:4000] + "..."`. -/
def truncate4000 (text : String) : String :=
  if 4000 < text.length then text.take 4000 ++ "..." else text

/-- Corrective extra rate percent of `text_to_speech`:
`int((needed_ratio - 1) * 100)` with `needed_ratio = actual / target`,
in exact arithmetic (truncation toward zero of the rational
`(actual - target) * 100 / target`). -/
def extra_rate_percent (actual : Nat) (target : Int) : Int :=
  Int.tdiv (((actual : Int) - target) * 100) target

/-- Cap of the corrective rate in `text_to_speech`:
`if extra_rate_percent > 25: extra_rate_percent = 25`. -/
def clamp_rate (e : Int) : Int :=
  if 25 < e then 25 else e

/-- Embedding of `EdgeTTSService.text_to_speech`, returning its result
tuple together with the list of `_generate_audio` invocations performed.
The guard `if target_duration_ms and actual_duration > target_duration_ms`
uses Python truthiness: `None` and `0` are falsy, so the branch is entered
exactly when a target is present, non-zero and strictly exceeded. -/
def text_to_speech (env : FitEnv) (text voice rate pitch volume : String)
    (target_duration_ms : Option Int) : TTSOutcome × List SynthCall :=
  if text.data.all Char.isWhitespace then
    (⟨false, none, 0, some "Üres szöveg"⟩, [])
  else if env.gen1 = false then
    (⟨false, none, 0, some "Első generálás sikertelen"⟩,
     [⟨truncate4000 text, voice, rate, pitch, volume⟩])
  else
    match target_duration_ms with
    | none =>
        (⟨true, some env.tempPath, env.dur1, none⟩,
         [⟨truncate4000 text, voice, rate, pitch, volume⟩])
    | some t =>
        if t ≠ 0 ∧ t < (env.dur1 : Int) then
          if 0 < clamp_rate (extra_rate_percent env.dur1 t) then
            if env.gen2 = false then
              (⟨false, none, 0, some "Újragenerálás sikertelen"⟩,
               [⟨truncate4000 text, voice, rate, pitch, volume⟩,
                ⟨truncate4000 text, voice,
                 "+" ++ toString (clamp_rate (extra_rate_percent env.dur1 t)) ++ "%",
                 pitch, volume⟩])
            else
              (⟨true, some env.tempPath, env.dur2, none⟩,
               [⟨truncate4000 text, voice, rate, pitch, volume⟩,
                ⟨truncate4000 text, voice,
                 "+" ++ toString (clamp_rate (extra_rate_percent env.dur1 t)) ++ "%",
                 pitch, volume⟩])
          else
            (⟨true, some env.tempPath, env.dur1, none⟩,
             [⟨truncate4000 text, voice, rate, pitch, volume⟩])
        else
          (⟨true, some env.tempPath, env.dur1, none⟩,
           [⟨truncate4000 text, voice, rate, pitch, volume⟩])

/-- Request schema `TTSRequest` of `backend/main.py`. The pydantic `Field`
declarations constrain only the text (`min_length=1, max_length=4000`);
`target_duration_ms` is declared `Optional[int]` with no bound. -/
structure TTSRequest where
  text : String
  voice : String
  rate : String
  pitch : String
  volume : String
  target_duration_ms : Option Int
deriving DecidableEq

/-- Validation performed by pydantic on `TTSRequest`: exactly the
`min_length=1` and `max_length=4000` constraints on `text`. -/
def validTTSRequest (r : TTSRequest) : Bool :=
  decide (1 ≤ r.text.length) && decide (r.text.length ≤ 4000)

/-- Exact rational numbers as unnormalised numerator/denominator pairs, the
carrier for the bit-accurate model of the IEEE-754 binary64 arithmetic that
`text_to_speech` performs in
`int((actual_duration / target_duration_ms - 1) * 100)`. All constructors
below keep the denominator positive. -/
structure Frac where
  num : Int
  den : Int
deriving DecidableEq

/-- Embeds an integer as an exact fraction. -/
def fracOfInt (n : Int) : Frac := ⟨n, 1⟩

/-- Builds a fraction with a positive denominator from any sign of input. -/
def fracMk (n d : Int) : Frac := if d < 0 then ⟨-n, -d⟩ else ⟨n, d⟩

/-- Exact difference of fractions. -/
def fracSub (a b : Frac) : Frac := ⟨a.num * b.den - b.num * a.den, a.den * b.den⟩

/-- Exact product of fractions. -/
def fracMul (a b : Frac) : Frac := ⟨a.num * b.num, a.den * b.den⟩

/-- Exact quotient of fractions. -/
def fracDiv (a b : Frac) : Frac := fracMk (a.num * b.den) (a.den * b.num)

/-- Strict comparison of fractions with positive denominators. -/
def fracLt (a b : Frac) : Bool := decide (a.num * b.den < b.num * a.den)

/-- Non-strict comparison of fractions with positive denominators. -/
def fracLe (a b : Frac) : Bool := decide (a.num * b.den ≤ b.num * a.den)

/-- Mathematical floor of a fraction with positive denominator. -/
def fracFloor (a : Frac) : Int := Int.fdiv a.num a.den

/-- Negation of a fraction. -/
def fracNeg (a : Frac) : Frac := ⟨-a.num, a.den⟩

/-- Truncation toward zero, the semantics of Python `int()` on a float. -/
def fracTrunc (x : Frac) : Int :=
  if 0 ≤ x.num then fracFloor x else -(fracFloor (fracNeg x))

/-- Power of two as an exact fraction, for any integer exponent. -/
def pow2Frac (k : Int) : Frac :=
  if 0 ≤ k then ⟨((2 : Nat) ^ k.toNat : Nat), 1⟩ else ⟨1, ((2 : Nat) ^ (-k).toNat : Nat)⟩

/-- Number of halvings needed to bring a fraction q with 1 ≤ q below 2;
this is the binary exponent of q. Fuel-bounded structural recursion so the
definition evaluates inside the kernel; 1100 units of fuel cover the whole
double range. -/
def findExpUp : Nat → Frac → Nat
  | 0, _ => 0
  | fuel + 1, q => if fracLt q ⟨2, 1⟩ then 0 else findExpUp fuel (fracMul q ⟨1, 2⟩) + 1

/-- Number of doublings needed to bring a fraction 0 < q < 1 up to at
least 1; the binary exponent of q is its negation. -/
def findExpDown : Nat → Frac → Nat
  | 0, _ => 0
  | fuel + 1, q => if fracLe ⟨1, 1⟩ q then 0 else findExpDown fuel (fracMul q ⟨2, 1⟩) + 1

/-- Binary exponent e of a positive fraction q, with 2 ^ e ≤ q < 2 ^ (e+1). -/
def floorLog2 (q : Frac) : Int :=
  if fracLe ⟨1, 1⟩ q then (findExpUp 1100 q : Int) else -(findExpDown 1100 q : Int)

/-- Rounding of an exact fraction to the nearest integer with ties to
even, the rounding step of IEEE round-to-nearest-even. -/
def roundHalfEven (x : Frac) : Int :=
  if fracLt (fracSub x (fracOfInt (fracFloor x))) ⟨1, 2⟩ then fracFloor x
  else if fracLt ⟨1, 2⟩ (fracSub x (fracOfInt (fracFloor x))) then fracFloor x + 1
  else if fracFloor x % 2 = 0 then fracFloor x else fracFloor x + 1

/-- Correct rounding of a positive fraction to the binary64 grid: scale
into the 53-bit significand range [2^52, 2^53), round to nearest with
ties to even, and scale back. Valid on the normal, non-overflowing range,
which all values of the corrective-rate computation inhabit. -/
def roundPos (q : Frac) : Frac :=
  fracMul (fracOfInt (roundHalfEven (fracMul q (pow2Frac (52 - floorLog2 q)))))
    (pow2Frac (floorLog2 q - 52))

/-- Correct rounding of any exact fraction to the nearest binary64 value
(round-to-nearest, ties to even), by sign symmetry. -/
def roundDouble (q : Frac) : Frac :=
  if q.num = 0 then fracOfInt 0
  else if q.num < 0 then fracNeg (roundPos (fracNeg q))
  else roundPos q

/-- Bit-accurate model of the corrective percent the program computes in
IEEE binary64 arithmetic:
`needed_ratio = actual_duration / target_duration_ms` (one correctly
rounded double division of exactly represented integers), then
`needed_ratio - 1` (correctly rounded subtraction), then `* 100`
(correctly rounded multiplication), then `int(...)` (truncation toward
zero). Reproduces CPython bit for bit on the double range, e.g. 1150/1000
gives 14 and 1140/1000 gives 13 where exact arithmetic gives 15 and 14. -/
def float_extra_rate_percent (actual : Nat) (target : Int) : Int :=
  fracTrunc (roundDouble (fracMul
    (roundDouble (fracSub (roundDouble (fracDiv (fracOfInt actual) (fracOfInt target)))
      (fracOfInt 1)))
    (fracOfInt 100)))

lemma extra_rate_percent_nonpos (d : Nat) (t : Int) (ht : t < 0) :
    extra_rate_percent d t ≤ 0 :=
  Int.tdiv_nonpos (mul_nonneg (by omega) (by norm_num)) ht.le

lemma clamp_rate_nonpos {e : Int} (h : e ≤ 0) : clamp_rate e ≤ 0 := by
  unfold clamp_rate
  rw [if_neg (by omega)]
  exact h

/-- C2: for every fit request, at most two synthesizer invocations occur,
whatever the environment (in particular even when the re-measured duration
after the corrective pass still exceeds the target). -/
theorem c2_at_most_two_synth_calls (env : FitEnv)
    (text voice rate pitch volume : String) (target : Option Int) :
    ((text_to_speech env text voice rate pitch volume target).2).length ≤ 2 := by
  unfold text_to_speech
  repeat' split
  all_goals simp

/-- C4: empty or whitespace-only text yields the failure tuple with the
empty-text message `"Üres szöveg"` (Hungarian for "empty text") and an
empty list of synthesizer invocations. -/
theorem c4_empty_text_rejected (env : FitEnv)
    (text voice rate pitch volume : String) (target : Option Int)
    (htext : text.data.all Char.isWhitespace = true) :
    text_to_speech env text voice rate pitch volume target =
      (⟨false, none, 0, some "Üres szöveg"⟩, []) := by
  unfold text_to_speech
  rw [if_pos htext]

theorem c4_witness :
    (" ".data.all Char.isWhitespace = true) ∧
    text_to_speech ⟨true, 0, true, 0, "p"⟩ " " "v" "+0%" "+0Hz" "+0%" none =
      (⟨false, none, 0, some "Üres szöveg"⟩, []) :=
  ⟨by decide,
   c4_empty_text_rejected ⟨true, 0, true, 0, "p"⟩ " " "v" "+0%" "+0Hz" "+0%" none
     (by decide)⟩

/-- C10: in every environment the returned tuple satisfies: success holds
iff the error message is `none`; on success the path is present and the
duration is non-negative; on failure the path is `none` and the duration
is `0`. -/
theorem c10_outcome_invariant (env : FitEnv)
    (text voice rate pitch volume : String) (target : Option Int) :
    (((text_to_speech env text voice rate pitch volume target).1.success = true) ↔
      (text_to_speech env text voice rate pitch volume target).1.errorMsg = none) ∧
    ((text_to_speech env text voice rate pitch volume target).1.success = true →
      (text_to_speech env text voice rate pitch volume target).1.path ≠ none ∧
      0 ≤ (text_to_speech env text voice rate pitch volume target).1.durationMs) ∧
    ((text_to_speech env text voice rate pitch volume target).1.success = false →
      (text_to_speech env text voice rate pitch volume target).1.path = none ∧
      (text_to_speech env text voice rate pitch volume target).1.durationMs = 0) := by
  unfold text_to_speech
  repeat' split
  all_goals simp

theorem c10_witness :
    (text_to_speech ⟨false, 0, true, 0, "p"⟩ "teszt" "v" "+0%" "+0Hz" "+0%" none).1.path
        = none ∧
    (text_to_speech ⟨false, 0, true, 0, "p"⟩ "teszt" "v" "+0%" "+0Hz" "+0%" none).1.durationMs
        = 0 :=
  (c10_outcome_invariant ⟨false, 0, true, 0, "p"⟩ "teszt" "v" "+0%" "+0Hz" "+0%" none).2.2
    (by decide)

/-- C1: the corrective percent the program actually computes is the IEEE
binary64 evaluation of `int((actual_duration / target_duration_ms - 1) * 100)`,
which diverges from the claimed exact `P = min(25, floor((actualMs /
targetDurationMs - 1) * 100))`: at `actual_duration = 1150`,
`target_duration_ms = 1000` the double computation yields
`int(14.999999999999991) = 14`, so the program issues rate `"+14%"`, while
the claimed P is 15 — which is also what the code's own inline comment
demands (`"pl. 1.15 -> +15%"`); likewise 1140/1000 yields 13 instead of
the claimed 14. -/
theorem c1_float_rate_divergence :
    float_extra_rate_percent 1150 1000 = 14 ∧
    min 25 (Int.fdiv (((1150 : Int) - 1000) * 100) 1000) = 15 ∧
    float_extra_rate_percent 1140 1000 = 13 ∧
    min 25 (Int.fdiv (((1140 : Int) - 1000) * 100) 1000) = 14 := by
  decide

/-- C3: when the initial synthesis succeeds and either no target is given
or the measured duration does not exceed the target, exactly one
synthesizer call occurs and the outcome is the success tuple carrying the
original artifact and the measured duration (which may be 0). -/
theorem c3_no_correction_single_call (env : FitEnv)
    (text voice rate pitch volume : String) (target : Option Int)
    (htext : text.data.all Char.isWhitespace = false)
    (hgen : env.gen1 = true)
    (htarget : target = none ∨ ∃ t, target = some t ∧ (env.dur1 : Int) ≤ t) :
    text_to_speech env text voice rate pitch volume target =
      (⟨true, some env.tempPath, env.dur1, none⟩,
       [⟨truncate4000 text, voice, rate, pitch, volume⟩]) := by
  unfold text_to_speech
  rw [if_neg (by simp [htext]), if_neg (by simp [hgen])]
  rcases htarget with rfl | ⟨t, rfl, hle⟩
  · rfl
  · dsimp only
    rw [if_neg]
    rintro ⟨h0, hlt⟩
    omega

theorem c3_witness :
    ("teszt".data.all Char.isWhitespace = false) ∧
    (((500 : Nat) : Int) ≤ 1000) ∧
    text_to_speech ⟨true, 500, true, 0, "p"⟩ "teszt" "v" "+0%" "+0Hz" "+0%" (some 1000) =
      (⟨true, some "p", 500, none⟩, [⟨"teszt", "v", "+0%", "+0Hz", "+0%"⟩]) :=
  ⟨by decide, by decide,
   by
     have h := c3_no_correction_single_call ⟨true, 500, true, 0, "p"⟩
       "teszt" "v" "+0%" "+0Hz" "+0%" (some 1000) (by decide) rfl
       (Or.inr ⟨1000, rfl, by decide⟩)
     exact h.trans (by decide)⟩

/-- C9: when the initial synthesis succeeds and the present target is zero
or negative, the controller behaves as if no target had been given: one
synthesizer call, success with the original artifact and duration. -/
theorem c9_nonpositive_target_ignored (env : FitEnv)
    (text voice rate pitch volume : String) (t : Int)
    (htext : text.data.all Char.isWhitespace = false)
    (hgen : env.gen1 = true) (ht : t ≤ 0) :
    text_to_speech env text voice rate pitch volume (some t) =
      (⟨true, some env.tempPath, env.dur1, none⟩,
       [⟨truncate4000 text, voice, rate, pitch, volume⟩]) := by
  unfold text_to_speech
  rw [if_neg (by simp [htext]), if_neg (by simp [hgen])]
  dsimp only
  rcases eq_or_lt_of_le ht with h0 | hneg
  · rw [if_neg]
    rintro ⟨hne, _⟩
    exact hne h0
  · have hcl : clamp_rate (extra_rate_percent env.dur1 t) ≤ 0 :=
      clamp_rate_nonpos (extra_rate_percent_nonpos env.dur1 t hneg)
    rw [if_pos ⟨by omega, by omega⟩, if_neg (by omega)]

theorem c9_witness :
    ((-5 : Int) ≤ 0) ∧
    text_to_speech ⟨true, 2000, true, 0, "p"⟩ "teszt" "v" "+0%" "+0Hz" "+0%" (some (-5)) =
      (⟨true, some "p", 2000, none⟩, [⟨"teszt", "v", "+0%", "+0Hz", "+0%"⟩]) :=
  ⟨by decide,
   by
     have h := c9_nonpositive_target_ignored ⟨true, 2000, true, 0, "p"⟩
       "teszt" "v" "+0%" "+0Hz" "+0%" (-5) (by decide) rfl (by decide)
     exact h.trans (by decide)⟩

/-- C5: every synthesizer invocation of a fit request receives the first
4000 characters plus the ellipsis marker when the text is longer than 4000
characters, and the text unchanged otherwise; and the controller only
fails because a synthesizer call failed, never because of the length. -/
theorem c5_truncation_never_length_failure (env : FitEnv)
    (text voice rate pitch volume : String) (target : Option Int)
    (htext : text.data.all Char.isWhitespace = false) :
    (∀ c ∈ (text_to_speech env text voice rate pitch volume target).2,
        c.text = (if 4000 < text.length then text.take 4000 ++ "..." else text)) ∧
    ((text_to_speech env text voice rate pitch volume target).1.success = false →
        env.gen1 = false ∨ env.gen2 = false) := by
  unfold text_to_speech
  rw [if_neg (by simp [htext])]
  repeat' split
  all_goals simp_all [truncate4000]

theorem c5_witness :
    SynthCall.text ⟨"teszt", "v", "+0%", "+0Hz", "+0%"⟩ = "teszt" :=
  ((c5_truncation_never_length_failure ⟨true, 0, true, 0, "p"⟩
      "teszt" "v" "+0%" "+0Hz" "+0%" none (by decide)).1
    ⟨"teszt", "v", "+0%", "+0Hz", "+0%"⟩ (by decide)).trans (by decide)

/-- C6: when the first synthesizer call fails, or when a second call was
made and it fails, the outcome is a failure and carries no artifact
path. -/
theorem c6_synth_failure_no_path (env : FitEnv)
    (text voice rate pitch volume : String) (target : Option Int) :
    ((env.gen1 = false →
        (text_to_speech env text voice rate pitch volume target).1.success = false ∧
        (text_to_speech env text voice rate pitch volume target).1.path = none) ∧
     ((text_to_speech env text voice rate pitch volume target).2.length = 2 →
        env.gen2 = false →
        (text_to_speech env text voice rate pitch volume target).1.success = false ∧
        (text_to_speech env text voice rate pitch volume target).1.path = none)) := by
  unfold text_to_speech
  repeat' split
  all_goals simp_all

theorem c6_witness :
    (text_to_speech ⟨false, 0, true, 0, "p"⟩ "teszt" "v" "+0%" "+0Hz" "+0%" none).1.success
        = false ∧
    (text_to_speech ⟨false, 0, true, 0, "p"⟩ "teszt" "v" "+0%" "+0Hz" "+0%" none).1.path
        = none :=
  (c6_synth_failure_no_path ⟨false, 0, true, 0, "p"⟩ "teszt" "v" "+0%" "+0Hz" "+0%"
      none).1 rfl

/-- C7 counterexample: when the backend raises after leaving a non-empty
file behind, `_generate_audio` returns false although the destination
exists with positive size, so the claimed equivalence "result is true iff
the destination exists with size > 0" fails. -/
theorem c7_counterexample :
    ¬ ((generate_audio ⟨true, ⟨true, 1⟩⟩ = true) ↔
       ((⟨true, ⟨true, 1⟩⟩ : GenEnv).fileAfter.pathExists = true ∧
        0 < (⟨true, ⟨true, 1⟩⟩ : GenEnv).fileAfter.sizeBytes)) := by
  decide

/-- C7 amended: the result of `_generate_audio` is true iff the backend
call raised no exception and the destination exists afterwards with size
strictly greater than zero; it is false whenever an exception was raised
or the output file is missing or empty. -/
theorem c7_generate_audio_success_iff (g : GenEnv) :
    (generate_audio g = true ↔
      g.raises = false ∧ g.fileAfter.pathExists = true ∧ 0 < g.fileAfter.sizeBytes) ∧
    (g.raises = true ∨ g.fileAfter.pathExists = false ∨ g.fileAfter.sizeBytes = 0 →
      generate_audio g = false) := by
  rcases g with ⟨r, e, s⟩
  unfold generate_audio
  cases r <;> cases e <;> simp

theorem c7_witness :
    ((true : Bool) = true ∨ (true : Bool) = false ∨ (5 : Nat) = 0) ∧
    generate_audio ⟨true, ⟨true, 5⟩⟩ = false :=
  ⟨Or.inl rfl, (c7_generate_audio_success_iff ⟨true, ⟨true, 5⟩⟩).2 (Or.inl rfl)⟩

/-- C8 counterexample: pydantic validation accepts a request whose
`target_duration_ms` is the negative integer -5, so validation does not
guarantee a strictly positive target. -/
theorem c8_counterexample :
    validTTSRequest ⟨"a", "hu-HU-NoemiNeural", "+0%", "+0Hz", "+0%", some (-5)⟩ = true ∧
    ¬ (0 < (-5 : Int)) := by
  decide

/-- C8 amended: request validation constrains only the text length and
places no bound on `target_duration_ms`, so non-positive targets reach the
controller; the corrective-rate division is nevertheless never reached
with a zero target, because the Python truthiness guard makes a request
with target 0 behave exactly like one with no target at all. -/
theorem c8_validation_unconstrained_target (r : TTSRequest) (t : Option Int)
    (env : FitEnv) (text voice rate pitch volume : String) :
    validTTSRequest { r with target_duration_ms := t } = validTTSRequest r ∧
    text_to_speech env text voice rate pitch volume (some 0) =
      text_to_speech env text voice rate pitch volume none := by
  refine ⟨rfl, ?_⟩
  unfold text_to_speech
  split
  · rfl
  · split
    · rfl
    · dsimp only
      rw [if_neg (by rintro ⟨h0, _⟩; exact h0 rfl)]
